import Mathlib

/-!
Verification development for the lesson-material generation pipeline
(scripts/generate_content.py, scripts/json_to_h5p.py,
scripts/upload_to_moodle.py).  The Python scripts are shallowly embedded:
remote calls and the filesystem are abstracted by oracles (Bool-valued
environments) and explicit state records, and each script function is
translated line by line into an executable Lean definition.
-/

/-! ## Python-dict association lists

Python dicts are insertion-ordered: assigning to an existing key updates
the binding in place, assigning a new key appends it at the end.  We model
dicts whose keys are strings as association lists with exactly these
insertion semantics. -/

def dictGet {α : Type} (m : List (String × α)) (k : String) : Option α :=
  match m with
  | [] => none
  | (k', v) :: rest => if k' = k then some v else dictGet rest k

def dictContains {α : Type} (m : List (String × α)) (k : String) : Bool :=
  (dictGet m k).isSome

def dictInsert {α : Type} (m : List (String × α)) (k : String) (v : α) :
    List (String × α) :=
  match m with
  | [] => [(k, v)]
  | (k', v') :: rest =>
      if k' = k then (k, v) :: rest else (k', v') :: dictInsert rest k v

/-! ## generate_content.py — generate_media_batch

`generate_media_batch(characters, output_dir)` loads the progress map from
`<output_dir>/.media_progress.json`, filters out already-processed
characters, and for each remaining character: determines its character
type via ord-range comparison with the katakana block, generates the
character image unless the image file already exists on disk, generates
the audio unless the audio file already exists on disk, records the
result in both the returned `results` dict and the in-memory
`processed_chars` dict, and rewrites the progress file.  Any exception in
a character's try-block (e.g. `ord` on a non-single-character string)
records a double-null result in `results` only.

The embedding abstracts the remote generators by oracles
(`genImageOk`/`genAudioOk`), an exception oracle (`raises`, placed at the
start of the try-block), and the on-disk existence of the two media files
per character by Boolean-valued functions carried in the state.  The
generator-invocation lists record, in order, the characters for which the
image respectively audio generator was actually called. -/

structure MediaResult where
  char_image : Option String
  audio : Option String
deriving DecidableEq, Repr

structure MediaEnv where
  raises : String → Bool
  genImageOk : String → Bool
  genAudioOk : String → Bool

structure BatchState where
  results : List (String × MediaResult)
  processed : List (String × MediaResult)
  checkpoint : List (String × MediaResult)
  imgExists : String → Bool
  audioExists : String → Bool
  imgCalls : List String
  audioCalls : List String

def updateFn (f : String → Bool) (k : String) (b : Bool) : String → Bool :=
  fun x => if x = k then b else f x

/-- `'katakana' if ord('ア') <= ord(char) <= ord('ン') else 'hiragana'`,
on the first character of the glyph string. -/
def charType (c : String) : String :=
  if 'ア'.toNat ≤ (c.data.headD 'A').toNat ∧
      (c.data.headD 'A').toNat ≤ 'ン'.toNat then "katakana" else "hiragana"

def charImgName (c : String) : String := "char_" ++ charType c ++ "_" ++ c ++ ".png"

def audioName (c : String) : String := charType c ++ "_" ++ c ++ ".mp3"

/-- One iteration of the per-character loop body of `generate_media_batch`,
including the per-character progress-file rewrite and the exception
handler that records a double-null result. -/
def processChar (env : MediaEnv) (st : BatchState) (c : String) : BatchState :=
  if env.raises c then
    { st with results := dictInsert st.results c ⟨none, none⟩ }
  else
    let imgStep : Option String × (String → Bool) × List String :=
      if st.imgExists c then
        (some ("images/" ++ charImgName c), st.imgExists, st.imgCalls)
      else if env.genImageOk c then
        (some ("images/" ++ charImgName c), updateFn st.imgExists c true,
          st.imgCalls ++ [c])
      else (none, st.imgExists, st.imgCalls ++ [c])
    let audStep : Option String × (String → Bool) × List String :=
      if st.audioExists c then
        (some ("audio/" ++ audioName c), st.audioExists, st.audioCalls)
      else if env.genAudioOk c then
        (some ("audios/" ++ audioName c), updateFn st.audioExists c true,
          st.audioCalls ++ [c])
      else (none, st.audioExists, st.audioCalls ++ [c])
    let r : MediaResult := ⟨imgStep.1, audStep.1⟩
    { results := dictInsert st.results c r
      processed := dictInsert st.processed c r
      checkpoint := dictInsert st.processed c r
      imgExists := imgStep.2.1
      audioExists := audStep.2.1
      imgCalls := imgStep.2.2
      audioCalls := audStep.2.2 }

/-- `generate_media_batch(characters, output_dir)`: `progress0` is the
progress map loaded from the checkpoint file (empty when the file is
absent or unreadable); `imgExists0`/`audioExists0` describe which media
files are already on disk.  The fixed-size batching of the Python loop
only inserts sleeps between batches and does not affect the state, so the
loop is the fold of `processChar` over the filtered character list. -/
def generate_media_batch (env : MediaEnv)
    (progress0 : List (String × MediaResult))
    (imgExists0 audioExists0 : String → Bool)
    (characters : List String) : BatchState :=
  let characters_to_process :=
    characters.filter (fun c => !(dictContains progress0 c))
  characters_to_process.foldl (processChar env)
    { results := []
      processed := progress0
      checkpoint := progress0
      imgExists := imgExists0
      audioExists := audioExists0
      imgCalls := []
      audioCalls := [] }

/-! ## generate_content.py — generate_audio

`generate_audio(character, output_path, include_example)` synthesizes the
bare character's speech into `<output>_char.mp3`; when `include_example`
is set and the lookup table has a nonempty example word, it synthesizes
the word into `<output>_word.mp3`, concatenates the clips with a silence
gap into `output_path`, and deletes both temp files; otherwise it renames
the char clip to `output_path`.  The except-handler deletes whichever of
the two temp files exist.  Remote speech calls and the concat/export step
are abstracted as fallible oracles; local file writes, removes and the
rename are modelled as reliable. -/

structure AudioEnv where
  includeExample : Bool
  exampleWord : Bool
  charTTSOk : Bool
  wordTTSOk : Bool
  concatOk : Bool

structure AudioFS where
  charTemp : Bool
  wordTemp : Bool
  output : Bool
deriving DecidableEq, Repr

/-- The except-handler of `generate_audio`: remove each temp file that
exists; the output file is untouched. -/
def audioCleanup (fs : AudioFS) : AudioFS :=
  { fs with charTemp := false, wordTemp := false }

structure AudioOutcome where
  ok : Bool
  fs : AudioFS
  charTTSCalls : Nat
  wordTTSCalls : Nat
deriving DecidableEq, Repr

def generate_audio (env : AudioEnv) (fs : AudioFS) : AudioOutcome :=
  if ¬ env.charTTSOk then
    ⟨false, audioCleanup fs, 1, 0⟩
  else
    let fs1 := { fs with charTemp := true }
    if env.includeExample ∧ env.exampleWord then
      if ¬ env.wordTTSOk then ⟨false, audioCleanup { fs1 with wordTemp := false }, 1, 1⟩
      else
        let fs2 := { fs1 with wordTemp := true }
        if ¬ env.concatOk then ⟨false, audioCleanup fs2, 1, 1⟩
        else ⟨true, { fs2 with charTemp := false, wordTemp := false, output := true }, 1, 1⟩
    else
      ⟨true, { fs1 with charTemp := false, output := true }, 1, 0⟩

/-! ## generate_content.py — call_gpt4o

`call_gpt4o(prompt)` loops `for attempt in range(max_retries)` with
`max_retries = 3` and `retry_delay = 5`; a successful completion call
returns immediately; a failed attempt sleeps `retry_delay` and doubles it
unless it was the last attempt, in which case the exception is re-raised.
`outcome n` tells whether the completion call of attempt `n` succeeds;
the embedding returns the result, the number of completion calls made,
and the list of sleep durations in order. -/

def gptAttempts (outcome : Nat → Bool) :
    List Nat → Nat → Nat → List Nat → (Except Unit Nat) × Nat × List Nat
  | [], _, calls, sleeps => (Except.error (), calls, sleeps)
  | a :: rest, delay, calls, sleeps =>
      if outcome a then (Except.ok a, calls + 1, sleeps)
      else if rest.isEmpty then (Except.error (), calls + 1, sleeps)
      else gptAttempts outcome rest (delay * 2) (calls + 1) (sleeps ++ [delay])

def call_gpt4o (outcome : Nat → Bool) : (Except Unit Nat) × Nat × List Nat :=
  gptAttempts outcome (List.range 3) 5 0 []

/-! ## generate_content.py — generate_example_image

One invocation makes at most one prompt-generation LLM call, at most one
image-synthesis call (Stability POST or OpenAI images.generate), and — on
the OpenAI path — at most one download GET.  Every failure returns
`False` without retrying.  `ImgCalls` counts the remote calls actually
made on each path. -/

structure ImgEnv where
  providerStability : Bool
  stabilityKey : Bool
  promptOk : Bool
  postOk : Bool
  status200 : Bool
  genOk : Bool
  downloadStatus200 : Bool
  resizeOk : Bool

structure ImgCalls where
  promptLLM : Nat
  imageAPI : Nat
  download : Nat
deriving DecidableEq, Repr

def generate_example_image (env : ImgEnv) : Bool × ImgCalls :=
  if ¬ env.promptOk then (false, ⟨1, 0, 0⟩)
  else if env.providerStability then
    if ¬ env.stabilityKey then (false, ⟨1, 0, 0⟩)
    else if ¬ env.postOk then (false, ⟨1, 1, 0⟩)
    else if env.status200 then
      if env.resizeOk then (true, ⟨1, 1, 0⟩) else (false, ⟨1, 1, 0⟩)
    else (false, ⟨1, 1, 0⟩)
  else
    if ¬ env.genOk then (false, ⟨1, 1, 0⟩)
    else if env.downloadStatus200 then
      if env.resizeOk then (true, ⟨1, 1, 1⟩) else (false, ⟨1, 1, 1⟩)
    else (false, ⟨1, 1, 1⟩)

/-! ## upload_to_moodle.py

Each helper makes exactly one HTTP POST per invocation, whatever the
outcome; `main` checks credentials (environment variables, before
command-line overrides are even applied), then the API access, then
uploads file by file.  The event trace records every remote operation
that touches an archive file, plus the connectivity check. -/

structure ApiCheckEnv where
  postRaises : Bool
  status200 : Bool
  hasException : Bool

def check_api_access (env : ApiCheckEnv) : Bool × Nat :=
  if env.postRaises then (false, 1)
  else if ¬ env.status200 then (false, 1)
  else if env.hasException then (false, 1)
  else (true, 1)

structure UploadFileEnv where
  postRaises : Bool
  status200 : Bool
  jsonOk : Bool
  listNonempty : Bool
  itemId : Nat

def upload_file_to_moodle (env : UploadFileEnv) : Option Nat × Nat :=
  if env.postRaises then (none, 1)
  else if ¬ env.status200 then (none, 1)
  else if ¬ env.jsonOk then (none, 1)
  else if env.listNonempty then (some env.itemId, 1)
  else (none, 1)

structure ActivityEnv where
  postRaises : Bool
  status200 : Bool
  jsonOk : Bool
  hasException : Bool
  activityId : Option Nat

def create_h5p_activity (env : ActivityEnv) : Option Nat × Nat :=
  if env.postRaises then (none, 1)
  else if ¬ env.status200 then (none, 1)
  else if ¬ env.jsonOk then (none, 1)
  else if env.hasException then (none, 1)
  else (env.activityId, 1)

inductive UploadEvent where
  | apiCheck
  | fileUpload (file : String)
  | activityCreate (file : String)
deriving DecidableEq, Repr

structure MoodleEnv where
  hasUrl : Bool
  hasToken : Bool
  hasCourseId : Bool
  apiCheckOk : Bool
  files : List String
  uploadOk : String → Bool
  activityOk : String → Bool

structure RunResult where
  events : List UploadEvent
  successful : Nat
  failed : Nat
  raised : Bool
deriving DecidableEq, Repr

/-- `get_config` returns `None` (and `main` returns) unless the three
required environment variables are set. -/
def get_config_ok (env : MoodleEnv) : Bool :=
  env.hasUrl && env.hasToken && env.hasCourseId

def uploadLoop (env : MoodleEnv) :
    List String → List UploadEvent → Nat → Nat → List UploadEvent × Nat × Nat
  | [], events, succ, failed => (events, succ, failed)
  | f :: rest, events, succ, failed =>
      if ¬ env.uploadOk f then
        uploadLoop env rest (events ++ [.fileUpload f]) succ (failed + 1)
      else if env.activityOk f then
        uploadLoop env rest (events ++ [.fileUpload f, .activityCreate f])
          (succ + 1) failed
      else
        uploadLoop env rest (events ++ [.fileUpload f, .activityCreate f])
          succ (failed + 1)

/-- `main()` of upload_to_moodle.py.  On missing credentials or a failed
API-access check it logs and returns normally (`return`, not `raise`):
no exception propagates out of `main` on any path, hence `raised` is
`false` in every outcome. -/
def upload_main (env : MoodleEnv) : RunResult :=
  if ¬ get_config_ok env then ⟨[], 0, 0, false⟩
  else if ¬ env.apiCheckOk then ⟨[.apiCheck], 0, 0, false⟩
  else
    let r := uploadLoop env env.files [.apiCheck] 0 0
    ⟨r.1, r.2.1, r.2.2, false⟩

/-! ## json_to_h5p.py — update_dialog_cards

`update_dialog_cards(existing_content, new_content_data)` rewrites
title/description when present, replaces `existing_content['dialogs']`
with one entry per source card — a dict literal with exactly the keys
`text`, `answer`, `tips`, each defaulted to the empty string via
`card.get(..., '')` — and merges the `behaviour` dict.  A card's
`image`/`audio` fields are never read.  Dialog entries are modelled as
the key-value lists of the emitted JSON objects, so the set of keys the
code emits is part of the model. -/

structure Card where
  text : Option String
  answer : Option String
  tip : Option String
  image : Option String
  audio : Option String
deriving DecidableEq, Repr

def dialogOfCard (card : Card) : List (String × String) :=
  [("text", card.text.getD ""),
   ("answer", card.answer.getD ""),
   ("tips", card.tip.getD "")]

structure DialogCardsDoc where
  title : Option String
  description : Option String
  cards : Option (List Card)
  behaviour : Option (List (String × Bool))
deriving Repr

structure DialogContent where
  title : Option String
  description : Option String
  dialogs : Option (List (List (String × String)))
  behaviour : Option (List (String × Bool))
  rest : List (String × String)
deriving Repr

def update_dialog_cards (existing : DialogContent) (newData : DialogCardsDoc) :
    DialogContent :=
  let c1 := match newData.title with
    | some t => { existing with title := some t }
    | none => existing
  let c2 := match newData.description with
    | some d => { c1 with description := some d }
    | none => c1
  let c3 := match newData.cards with
    | some cards => { c2 with dialogs := some (cards.map dialogOfCard) }
    | none => c2
  match newData.behaviour with
  | some bs =>
      let merged := bs.foldl (fun acc kv => dictInsert acc kv.1 kv.2)
        (c3.behaviour.getD [])
      { c3 with behaviour := some merged }
  | none => c3

/-! ## json_to_h5p.py — determine_content_type -/

/-- Executable check that `needle` occurs as a contiguous run in `hay`,
the `in` operator of Python on strings. -/
def infixCheck (needle : List Char) : List Char → Bool
  | [] => needle.isEmpty
  | c :: rest => needle.isPrefixOf (c :: rest) || infixCheck needle rest

def strContains (hay needle : String) : Bool :=
  infixCheck needle.data hay.data

structure Question where
  hasAnswers : Bool
  text : Option String
deriving DecidableEq, Repr

structure ContentDoc where
  hasCards : Bool
  hasSlides : Bool
  questions : Option (List Question)
deriving Repr

/-- The keys of CONTENT_TYPE_MAPPING in insertion order. -/
def contentTypeKeys : List String :=
  ["dialog_cards", "course_presentation", "multiple_choice", "fill_blanks",
   "drag_drop", "memory_game"]

def determine_content_type (fileName : String) (doc : ContentDoc) : String :=
  match contentTypeKeys.find? (fun t => strContains fileName t) with
  | some t => t
  | none =>
      if doc.hasCards then "dialog_cards"
      else if doc.hasSlides then "course_presentation"
      else if doc.questions.isSome &&
          (doc.questions.getD []).any (·.hasAnswers) then "multiple_choice"
      else if doc.questions.isSome &&
          (doc.questions.getD []).any
            (fun q => q.text.isSome && strContains (q.text.getD "") "*") then
        "fill_blanks"
      else "dialog_cards"

/-! ## json_to_h5p.py — update_h5p_metadata

`update_h5p_metadata(h5p_json_path, content_data, content_type)` loads
the metadata descriptor, sets `h5p_metadata['title'] =
content_data['title']` when the document has a title, and writes the
descriptor back; no other key is read, written or deleted.  The
descriptor is modelled as a dict with an arbitrary value type. -/

def update_h5p_metadata {α : Type} (h5pMetadata : List (String × α))
    (contentTitle : Option α) : List (String × α) :=
  match contentTitle with
  | some t => dictInsert h5pMetadata "title" t
  | none => h5pMetadata

/-! ## Basic dictionary lemmas -/

theorem dictGet_insert_self {α : Type} (m : List (String × α)) (k : String)
    (v : α) : dictGet (dictInsert m k v) k = some v := by
  induction m with
  | nil => simp [dictInsert, dictGet]
  | cons p rest ih =>
      obtain ⟨k', v'⟩ := p
      by_cases h : k' = k <;> simp [dictInsert, dictGet, h, ih]

theorem dictGet_insert_ne {α : Type} (m : List (String × α)) (k x : String)
    (v : α) (hne : k ≠ x) : dictGet (dictInsert m k v) x = dictGet m x := by
  induction m with
  | nil => simp [dictInsert, dictGet, hne]
  | cons p rest ih =>
      obtain ⟨k', v'⟩ := p
      by_cases h : k' = k
      · subst h
        simp [dictInsert, dictGet, hne]
      · simp [dictInsert, dictGet, h, ih]

theorem dictContains_insert_self {α : Type} (m : List (String × α))
    (k : String) (v : α) : dictContains (dictInsert m k v) k = true := by
  simp [dictContains, dictGet_insert_self]

theorem dictContains_insert_ne {α : Type} (m : List (String × α)) (k x : String)
    (v : α) (hne : k ≠ x) :
    dictContains (dictInsert m k v) x = dictContains m x := by
  simp [dictContains, dictGet_insert_ne m k x v hne]

theorem dictContains_insert_mono {α : Type} (m : List (String × α))
    (k x : String) (v : α) (h : dictContains m x = true) :
    dictContains (dictInsert m k v) x = true := by
  by_cases hkx : k = x
  · subst hkx
    exact dictContains_insert_self m k v
  · rw [dictContains_insert_ne m k x v hkx]
    exact h

/-! ## Invariants of the generate_media_batch fold -/

theorem foldl_processChar_checkpoint (env : MediaEnv) (cs : List String)
    (st : BatchState) (h : st.checkpoint = st.processed) :
    (cs.foldl (processChar env) st).checkpoint =
      (cs.foldl (processChar env) st).processed := by
  induction cs generalizing st with
  | nil => simpa using h
  | cons c rest ih =>
      simp only [List.foldl_cons]
      apply ih
      by_cases hr : env.raises c = true
      · simp [processChar, hr, h]
      · simp only [Bool.not_eq_true] at hr
        simp [processChar, hr]

theorem foldl_processChar_processed_mono (env : MediaEnv) (cs : List String)
    (st : BatchState) (x : String) (h : dictContains st.processed x = true) :
    dictContains (cs.foldl (processChar env) st).processed x = true := by
  induction cs generalizing st with
  | nil => simpa using h
  | cons c rest ih =>
      simp only [List.foldl_cons]
      apply ih
      by_cases hr : env.raises c = true
      · simpa [processChar, hr] using h
      · simp only [Bool.not_eq_true] at hr
        simp only [processChar, hr, Bool.false_eq_true, if_false]
        exact dictContains_insert_mono _ _ _ _ h

theorem foldl_processChar_processed_new (env : MediaEnv) (cs : List String)
    (st : BatchState) (x : String) (hx : x ∈ cs)
    (hr : env.raises x = false) :
    dictContains (cs.foldl (processChar env) st).processed x = true := by
  induction cs generalizing st with
  | nil => cases hx
  | cons c rest ih =>
      simp only [List.foldl_cons]
      rcases List.mem_cons.mp hx with hceq | hmem
      · subst hceq
        apply foldl_processChar_processed_mono
        simp only [processChar, hr, Bool.false_eq_true, if_false]
        exact dictContains_insert_self _ _ _
      · exact ih _ hmem

theorem processChar_raise (env : MediaEnv) (st : BatchState) (c : String)
    (hr : env.raises c = true) :
    processChar env st c =
      { st with results := dictInsert st.results c ⟨none, none⟩ } := by
  simp [processChar, hr]

theorem processChar_noraise_imgCalls (env : MediaEnv) (st : BatchState)
    (c : String) (hr : env.raises c = false) (hi : st.imgExists c = false) :
    (processChar env st c).imgCalls = st.imgCalls ++ [c] := by
  by_cases hg : env.genImageOk c <;>
    by_cases ha : st.audioExists c <;>
      by_cases hga : env.genAudioOk c <;>
        simp [processChar, hr, hi, hg, ha, hga]

theorem processChar_noraise_audioCalls (env : MediaEnv) (st : BatchState)
    (c : String) (hr : env.raises c = false) (ha : st.audioExists c = false) :
    (processChar env st c).audioCalls = st.audioCalls ++ [c] := by
  by_cases hg : env.genAudioOk c <;>
    by_cases hi : st.imgExists c <;>
      by_cases hgi : env.genImageOk c <;>
        simp [processChar, hr, ha, hg, hi, hgi]

theorem processChar_imgExists_other (env : MediaEnv) (st : BatchState)
    (c x : String) (hx : x ≠ c) :
    (processChar env st c).imgExists x = st.imgExists x := by
  by_cases hr : env.raises c <;>
    by_cases hi : st.imgExists c <;>
      by_cases hg : env.genImageOk c <;>
        simp [processChar, hr, hi, hg, updateFn, hx]

theorem processChar_audioExists_other (env : MediaEnv) (st : BatchState)
    (c x : String) (hx : x ≠ c) :
    (processChar env st c).audioExists x = st.audioExists x := by
  by_cases hr : env.raises c <;>
    by_cases ha : st.audioExists c <;>
      by_cases hg : env.genAudioOk c <;>
        simp [processChar, hr, ha, hg, updateFn, hx]

theorem foldl_processChar_calls (env : MediaEnv) (cs : List String)
    (st : BatchState) (hnodup : cs.Nodup)
    (hr : ∀ c ∈ cs, env.raises c = false)
    (himg : ∀ c ∈ cs, st.imgExists c = false)
    (haud : ∀ c ∈ cs, st.audioExists c = false) :
    (cs.foldl (processChar env) st).imgCalls = st.imgCalls ++ cs ∧
    (cs.foldl (processChar env) st).audioCalls = st.audioCalls ++ cs := by
  induction cs generalizing st with
  | nil => simp
  | cons c rest ih =>
      have hcr : env.raises c = false := hr c (List.mem_cons_self c rest)
      have hci : st.imgExists c = false := himg c (List.mem_cons_self c rest)
      have hca : st.audioExists c = false := haud c (List.mem_cons_self c rest)
      have hcnot : c ∉ rest := (List.nodup_cons.mp hnodup).1
      have hrest : rest.Nodup := (List.nodup_cons.mp hnodup).2
      simp only [List.foldl_cons]
      have step := ih (processChar env st c) hrest
        (fun x hx => hr x (List.mem_cons_of_mem c hx))
        (fun x hx => by
          rw [processChar_imgExists_other env st c x
            (fun h => hcnot (h ▸ hx))]
          exact himg x (List.mem_cons_of_mem c hx))
        (fun x hx => by
          rw [processChar_audioExists_other env st c x
            (fun h => hcnot (h ▸ hx))]
          exact haud x (List.mem_cons_of_mem c hx))
      rw [step.1, step.2, processChar_noraise_imgCalls env st c hcr hci,
        processChar_noraise_audioCalls env st c hcr hca]
      simp

theorem processChar_get_other (env : MediaEnv) (st : BatchState)
    (c x : String) (hx : c ≠ x) (hr : env.raises c = false) :
    dictGet (processChar env st c).processed x = dictGet st.processed x ∧
    dictGet (processChar env st c).checkpoint x = dictGet st.processed x := by
  simp only [processChar, hr, Bool.false_eq_true, if_false]
  exact ⟨dictGet_insert_ne _ _ _ _ hx, dictGet_insert_ne _ _ _ _ hx⟩

theorem foldl_processChar_get_preserve (env : MediaEnv) (cs : List String)
    (st : BatchState) (x : String) (hx : x ∉ cs)
    (hinv : dictGet st.checkpoint x = dictGet st.processed x) :
    dictGet (cs.foldl (processChar env) st).processed x =
      dictGet st.processed x ∧
    dictGet (cs.foldl (processChar env) st).checkpoint x =
      dictGet st.processed x := by
  induction cs generalizing st with
  | nil => exact ⟨rfl, hinv⟩
  | cons c rest ih =>
      have hxc : c ≠ x := fun h => hx (h ▸ List.mem_cons_self c rest)
      have hxrest : x ∉ rest := fun h => hx (List.mem_cons_of_mem c h)
      simp only [List.foldl_cons]
      by_cases hr : env.raises c = true
      · rw [processChar_raise env st c hr]
        exact ih _ hxrest hinv
      · simp only [Bool.not_eq_true] at hr
        have hstep := processChar_get_other env st c x hxc hr
        have := ih (processChar env st c) hxrest
          (by rw [hstep.1, hstep.2])
        rw [this.1, this.2, hstep.1]
        exact ⟨rfl, rfl⟩

theorem generate_media_batch_checkpoint_eq (env : MediaEnv)
    (progress0 : List (String × MediaResult))
    (imgE audE : String → Bool) (characters : List String) :
    (generate_media_batch env progress0 imgE audE characters).checkpoint =
      (generate_media_batch env progress0 imgE audE characters).processed := by
  unfold generate_media_batch
  exact foldl_processChar_checkpoint env _ _ rfl

theorem generate_media_batch_contains (env : MediaEnv)
    (progress0 : List (String × MediaResult))
    (imgE audE : String → Bool) (characters : List String) (c : String)
    (hc : c ∈ characters) (hr : env.raises c = false) :
    dictContains
      (generate_media_batch env progress0 imgE audE characters).processed c =
      true := by
  unfold generate_media_batch
  by_cases hp : dictContains progress0 c = true
  · exact foldl_processChar_processed_mono env _ _ c hp
  · apply foldl_processChar_processed_new env _ _ c _ hr
    simp only [Bool.not_eq_true] at hp
    exact List.mem_filter.mpr ⟨hc, by simp [hp]⟩

theorem generate_media_batch_all_contained (env : MediaEnv)
    (progress0 : List (String × MediaResult))
    (imgE audE : String → Bool) (symbols : List String)
    (h : ∀ c ∈ symbols, dictContains progress0 c = true) :
    generate_media_batch env progress0 imgE audE symbols =
      { results := []
        processed := progress0
        checkpoint := progress0
        imgExists := imgE
        audioExists := audE
        imgCalls := []
        audioCalls := [] } := by
  unfold generate_media_batch
  have hfil : symbols.filter (fun c => !(dictContains progress0 c)) = [] := by
    apply List.filter_eq_nil_iff.mpr
    intro c hc
    simp [h c hc]
  rw [hfil]
  rfl

/-- C1: after a completed exception-free run of `generate_media_batch`,
every symbol is present in the checkpoint map, so a second run with the
same symbols invokes no generator at all — but it also returns the empty
result mapping, because symbols found in the progress map are skipped
without being copied into `results`.  This proves the amended claim: the
second invocation performs zero remote generation calls and returns the
empty mapping rather than a mapping identical to the first call's. -/
theorem C1_second_run_no_calls_empty_results (env : MediaEnv)
    (imgE audE imgE' audE' : String → Bool) (symbols : List String)
    (hr : ∀ c ∈ symbols, env.raises c = false) :
    (generate_media_batch env
        (generate_media_batch env [] imgE audE symbols).checkpoint
        imgE' audE' symbols).imgCalls = [] ∧
    (generate_media_batch env
        (generate_media_batch env [] imgE audE symbols).checkpoint
        imgE' audE' symbols).audioCalls = [] ∧
    (generate_media_batch env
        (generate_media_batch env [] imgE audE symbols).checkpoint
        imgE' audE' symbols).results = [] := by
  have hconts : ∀ c ∈ symbols,
      dictContains
        (generate_media_batch env [] imgE audE symbols).checkpoint c =
        true := by
    intro c hc
    rw [generate_media_batch_checkpoint_eq]
    exact generate_media_batch_contains env [] imgE audE symbols c hc
      (hr c hc)
  rw [generate_media_batch_all_contained env _ imgE' audE' symbols hconts]
  exact ⟨rfl, rfl, rfl⟩

/-- C1 witness: concrete instantiation of the amended theorem at a
single-symbol list with an exception-free environment. -/
theorem C1_witness :
    (∀ c ∈ ["a"],
      (MediaEnv.mk (fun _ => false) (fun _ => true) (fun _ => true)).raises c =
        false) ∧
    ((generate_media_batch
        (MediaEnv.mk (fun _ => false) (fun _ => true) (fun _ => true))
        (generate_media_batch
          (MediaEnv.mk (fun _ => false) (fun _ => true) (fun _ => true))
          [] (fun _ => false) (fun _ => false) ["a"]).checkpoint
        (fun _ => true) (fun _ => true) ["a"]).imgCalls = [] ∧
      (generate_media_batch
        (MediaEnv.mk (fun _ => false) (fun _ => true) (fun _ => true))
        (generate_media_batch
          (MediaEnv.mk (fun _ => false) (fun _ => true) (fun _ => true))
          [] (fun _ => false) (fun _ => false) ["a"]).checkpoint
        (fun _ => true) (fun _ => true) ["a"]).audioCalls = [] ∧
      (generate_media_batch
        (MediaEnv.mk (fun _ => false) (fun _ => true) (fun _ => true))
        (generate_media_batch
          (MediaEnv.mk (fun _ => false) (fun _ => true) (fun _ => true))
          [] (fun _ => false) (fun _ => false) ["a"]).checkpoint
        (fun _ => true) (fun _ => true) ["a"]).results = []) :=
  ⟨by decide,
    C1_second_run_no_calls_empty_results
      (MediaEnv.mk (fun _ => false) (fun _ => true) (fun _ => true))
      (fun _ => false) (fun _ => false) (fun _ => true) (fun _ => true)
      ["a"] (by decide)⟩

/-- C1 counterexample: with one symbol and an exception-free first run,
the second run's result mapping is empty, not identical to the first
run's mapping, refuting the claim as stated. -/
theorem C1_counterexample :
    (generate_media_batch
        (MediaEnv.mk (fun _ => false) (fun _ => true) (fun _ => true))
        (generate_media_batch
          (MediaEnv.mk (fun _ => false) (fun _ => true) (fun _ => true))
          [] (fun _ => false) (fun _ => false) ["a"]).checkpoint
        (fun _ => true) (fun _ => true) ["a"]).results ≠
      (generate_media_batch
        (MediaEnv.mk (fun _ => false) (fun _ => true) (fun _ => true))
        [] (fun _ => false) (fun _ => false) ["a"]).results := by
  decide

/-- C2 (amended): after a symbol is processed without an exception, its
result is appended to the progress map and the checkpoint file is
rewritten to the updated map before the next symbol is started; a symbol
whose processing raises an exception is recorded as a double-null result
in the returned mapping only — the progress map and the checkpoint file
are left unchanged for it. -/
theorem C2_per_symbol_flush (env : MediaEnv) (st : BatchState) (c : String) :
    (env.raises c = false →
      ∃ r, (processChar env st c).results = dictInsert st.results c r ∧
        (processChar env st c).processed = dictInsert st.processed c r ∧
        (processChar env st c).checkpoint = dictInsert st.processed c r) ∧
    (env.raises c = true →
      (processChar env st c).processed = st.processed ∧
      (processChar env st c).checkpoint = st.checkpoint ∧
      dictGet (processChar env st c).results c =
        some (MediaResult.mk none none)) := by
  constructor
  · intro hr
    simp only [processChar, hr, Bool.false_eq_true, if_false]
    exact ⟨_, rfl, rfl, rfl⟩
  · intro hr
    refine ⟨?_, ?_, ?_⟩ <;> simp [processChar, hr, dictGet_insert_self]

/-- C2 witness: both branches of the per-symbol flush theorem at concrete
states — one exception-free symbol and one raising symbol. -/
theorem C2_witness :
    (∃ r,
      (processChar (MediaEnv.mk (fun _ => false) (fun _ => true) (fun _ => true))
          (BatchState.mk [] [] [] (fun _ => false) (fun _ => false) [] [])
          "a").results =
        dictInsert [] "a" r ∧
      (processChar (MediaEnv.mk (fun _ => false) (fun _ => true) (fun _ => true))
          (BatchState.mk [] [] [] (fun _ => false) (fun _ => false) [] [])
          "a").processed =
        dictInsert [] "a" r ∧
      (processChar (MediaEnv.mk (fun _ => false) (fun _ => true) (fun _ => true))
          (BatchState.mk [] [] [] (fun _ => false) (fun _ => false) [] [])
          "a").checkpoint =
        dictInsert [] "a" r) ∧
    ((processChar (MediaEnv.mk (fun _ => true) (fun _ => true) (fun _ => true))
        (BatchState.mk [] [] [] (fun _ => false) (fun _ => false) [] [])
        "a").processed = [] ∧
      (processChar (MediaEnv.mk (fun _ => true) (fun _ => true) (fun _ => true))
          (BatchState.mk [] [] [] (fun _ => false) (fun _ => false) [] [])
          "a").checkpoint = [] ∧
      dictGet
        (processChar (MediaEnv.mk (fun _ => true) (fun _ => true) (fun _ => true))
          (BatchState.mk [] [] [] (fun _ => false) (fun _ => false) [] [])
          "a").results "a" =
        some (MediaResult.mk none none)) :=
  ⟨(C2_per_symbol_flush
      (MediaEnv.mk (fun _ => false) (fun _ => true) (fun _ => true))
      (BatchState.mk [] [] [] (fun _ => false) (fun _ => false) [] [])
      "a").1 rfl,
    (C2_per_symbol_flush
      (MediaEnv.mk (fun _ => true) (fun _ => true) (fun _ => true))
      (BatchState.mk [] [] [] (fun _ => false) (fun _ => false) [] [])
      "a").2 rfl⟩

/-- C2 counterexample: a symbol whose processing raises an exception is
recorded as a double-null entry in the returned mapping, but the progress
map/checkpoint file is NOT rewritten for it — after the run the checkpoint
is still empty, refuting the claim that every processed symbol (including
raising ones) is appended to the progress map and flushed. -/
theorem C2_counterexample :
    (generate_media_batch
        (MediaEnv.mk (fun _ => true) (fun _ => true) (fun _ => true))
        [] (fun _ => false) (fun _ => false) ["a"]).results =
      [("a", MediaResult.mk none none)] ∧
    (generate_media_batch
        (MediaEnv.mk (fun _ => true) (fun _ => true) (fun _ => true))
        [] (fun _ => false) (fun _ => false) ["a"]).checkpoint = [] := by
  decide

/-- C3: resumability.  If the progress map contains exactly the already
checkpointed symbols (`h1`) and none of the remaining distinct symbols
(`h2`), the remaining symbols raise no exception and have no media files
on disk yet, then a fresh invocation on the full list invokes the image
and audio generators exactly once for each remaining symbol, in order,
and the checkpoint entries of the already-done symbols are unchanged. -/
theorem C3_resume_processes_remaining (env : MediaEnv)
    (progress0 : List (String × MediaResult)) (imgE audE : String → Bool)
    (done remaining : List String)
    (h1 : ∀ c ∈ done, dictContains progress0 c = true)
    (h2 : ∀ c ∈ remaining, dictContains progress0 c = false)
    (hnodup : remaining.Nodup)
    (hr : ∀ c ∈ remaining, env.raises c = false)
    (himg : ∀ c ∈ remaining, imgE c = false)
    (haud : ∀ c ∈ remaining, audE c = false) :
    (generate_media_batch env progress0 imgE audE
        (done ++ remaining)).imgCalls = remaining ∧
    (generate_media_batch env progress0 imgE audE
        (done ++ remaining)).audioCalls = remaining ∧
    ∀ c ∈ done,
      dictGet (generate_media_batch env progress0 imgE audE
        (done ++ remaining)).checkpoint c = dictGet progress0 c := by
  have hfil : (done ++ remaining).filter
      (fun c => !(dictContains progress0 c)) = remaining := by
    rw [List.filter_append]
    have hdone : done.filter (fun c => !(dictContains progress0 c)) = [] := by
      apply List.filter_eq_nil_iff.mpr
      intro c hc
      simp [h1 c hc]
    have hrem : remaining.filter (fun c => !(dictContains progress0 c)) =
        remaining := by
      apply List.filter_eq_self.mpr
      intro c hc
      simp [h2 c hc]
    rw [hdone, hrem, List.nil_append]
  unfold generate_media_batch
  rw [hfil]
  have hcalls := foldl_processChar_calls env remaining
    { results := []
      processed := progress0
      checkpoint := progress0
      imgExists := imgE
      audioExists := audE
      imgCalls := []
      audioCalls := [] } hnodup hr himg haud
  refine ⟨by simpa using hcalls.1, by simpa using hcalls.2, ?_⟩
  intro c hc
  have hcnot : c ∉ remaining := by
    intro hmem
    have h2c := h2 c hmem
    rw [h1 c hc] at h2c
    exact absurd h2c (by decide)
  exact (foldl_processChar_get_preserve env remaining _ c hcnot rfl).2

/-- C3 witness: one checkpointed symbol and one remaining symbol. -/
theorem C3_witness :
    ((∀ c ∈ ["a"],
        dictContains [("a", MediaResult.mk none none)] c = true) ∧
      (∀ c ∈ ["b"],
        dictContains [("a", MediaResult.mk none none)] c = false) ∧
      List.Nodup ["b"]) ∧
    ((generate_media_batch
        (MediaEnv.mk (fun _ => false) (fun _ => true) (fun _ => true))
        [("a", MediaResult.mk none none)] (fun _ => false) (fun _ => false)
        (["a"] ++ ["b"])).imgCalls = ["b"] ∧
      (generate_media_batch
        (MediaEnv.mk (fun _ => false) (fun _ => true) (fun _ => true))
        [("a", MediaResult.mk none none)] (fun _ => false) (fun _ => false)
        (["a"] ++ ["b"])).audioCalls = ["b"] ∧
      ∀ c ∈ ["a"],
        dictGet (generate_media_batch
          (MediaEnv.mk (fun _ => false) (fun _ => true) (fun _ => true))
          [("a", MediaResult.mk none none)] (fun _ => false) (fun _ => false)
          (["a"] ++ ["b"])).checkpoint c =
          dictGet [("a", MediaResult.mk none none)] c) :=
  ⟨⟨by decide, by decide, by decide⟩,
    C3_resume_processes_remaining
      (MediaEnv.mk (fun _ => false) (fun _ => true) (fun _ => true))
      [("a", MediaResult.mk none none)] (fun _ => false) (fun _ => false)
      ["a"] ["b"] (by decide) (by decide) (by decide) (by decide)
      (by decide) (by decide)⟩

theorem generate_media_batch_single_results (env : MediaEnv) (c : String)
    (imgE audE : String → Bool) (hr : env.raises c = false) :
    (generate_media_batch env [] imgE audE [c]).results =
      [(c, MediaResult.mk
        (if imgE c = true then some ("images/" ++ charImgName c)
          else if env.genImageOk c = true then some ("images/" ++ charImgName c)
          else none)
        (if audE c = true then some ("audio/" ++ audioName c)
          else if env.genAudioOk c = true then some ("audios/" ++ audioName c)
          else none))] := by
  by_cases h1 : imgE c = true <;> by_cases h2 : env.genImageOk c = true <;>
    by_cases h3 : audE c = true <;> by_cases h4 : env.genAudioOk c = true <;>
      simp [generate_media_batch, dictContains, dictGet, processChar, hr,
        dictInsert, h1, h2, h3, h4]

/-- C10: for a symbol not in the progress map and raising no exception,
the recorded audio path carries the directory name `audio/` when the
audio file already exists on disk, and `audios/` when the file is freshly
generated; consequently the recorded result mappings for the two disk
states differ. -/
theorem C10_audio_path_depends_on_preexistence (env : MediaEnv) (c : String)
    (imgE : String → Bool) (hr : env.raises c = false)
    (hg : env.genAudioOk c = true) :
    Option.map (fun r => r.audio)
      (dictGet (generate_media_batch env [] imgE (fun _ => true) [c]).results
        c) = some (some ("audio/" ++ audioName c)) ∧
    Option.map (fun r => r.audio)
      (dictGet (generate_media_batch env [] imgE (fun _ => false) [c]).results
        c) = some (some ("audios/" ++ audioName c)) ∧
    dictGet (generate_media_batch env [] imgE (fun _ => true) [c]).results c ≠
      dictGet (generate_media_batch env [] imgE (fun _ => false) [c]).results
        c := by
  rw [generate_media_batch_single_results env c imgE (fun _ => true) hr,
    generate_media_batch_single_results env c imgE (fun _ => false) hr]
  refine ⟨by simp [dictGet], by simp [dictGet, hg], ?_⟩
  intro h
  have hmap := congrArg (Option.map (fun r => r.audio)) h
  simp [dictGet, hg] at hmap
  have hlen := congrArg String.length hmap
  rw [String.length_append, String.length_append] at hlen
  have h6 : ("audio/" : String).length = 6 := rfl
  have h7 : ("audios/" : String).length = 7 := rfl
  rw [h6, h7] at hlen
  omega

/-- C10 witness: concrete symbol with fresh versus pre-existing audio. -/
theorem C10_witness :
    (Option.map (fun r => r.audio)
      (dictGet (generate_media_batch
        (MediaEnv.mk (fun _ => false) (fun _ => true) (fun _ => true))
        [] (fun _ => false) (fun _ => true) ["a"]).results "a") =
      some (some ("audio/" ++ audioName "a")) ∧
    Option.map (fun r => r.audio)
      (dictGet (generate_media_batch
        (MediaEnv.mk (fun _ => false) (fun _ => true) (fun _ => true))
        [] (fun _ => false) (fun _ => false) ["a"]).results "a") =
      some (some ("audios/" ++ audioName "a")) ∧
    dictGet (generate_media_batch
        (MediaEnv.mk (fun _ => false) (fun _ => true) (fun _ => true))
        [] (fun _ => false) (fun _ => true) ["a"]).results "a" ≠
      dictGet (generate_media_batch
        (MediaEnv.mk (fun _ => false) (fun _ => true) (fun _ => true))
        [] (fun _ => false) (fun _ => false) ["a"]).results "a") :=
  C10_audio_path_depends_on_preexistence
    (MediaEnv.mk (fun _ => false) (fun _ => true) (fun _ => true))
    "a" (fun _ => false) rfl rfl

/-- C7: starting from a state in which neither derived temp file exists,
`generate_audio` leaves neither `<output>_char.mp3` nor
`<output>_word.mp3` on disk, on the success path, on the no-example
rename path, and on every failure path (char synthesis failure, word
synthesis failure, concatenation failure — the except-handler removes
whichever temp files exist). -/
theorem C7_generate_audio_temp_cleanup (env : AudioEnv) (fs : AudioFS)
    (hc : fs.charTemp = false) (hw : fs.wordTemp = false) :
    (generate_audio env fs).fs.charTemp = false ∧
    (generate_audio env fs).fs.wordTemp = false := by
  unfold generate_audio audioCleanup
  split_ifs <;> simp_all

/-- C7 witness: concatenation failure with both temps freshly written. -/
theorem C7_witness :
    ((AudioFS.mk false false false).charTemp = false ∧
      (AudioFS.mk false false false).wordTemp = false) ∧
    ((generate_audio (AudioEnv.mk true true true true false)
        (AudioFS.mk false false false)).fs.charTemp = false ∧
      (generate_audio (AudioEnv.mk true true true true false)
        (AudioFS.mk false false false)).fs.wordTemp = false) :=
  ⟨⟨rfl, rfl⟩,
    C7_generate_audio_temp_cleanup (AudioEnv.mk true true true true false)
      (AudioFS.mk false false false) rfl rfl⟩

/-- C8: only the LLM text-completion call is retried — `call_gpt4o` makes
at most 3 attempts, sleeps 5 then 10 seconds between attempts (a fixed
initial delay that doubles), re-raises after the third failure, and
returns after the first success; every other remote call in the pipeline
(prompt-generation LLM call, image-synthesis call, image download, the
two speech-synthesis calls, the Moodle upload, activity-creation, and
API-check POSTs) is attempted at most once per invocation, with the
single-shot POST helpers making exactly one POST each. -/
theorem C8_retry_policy (outcome : Nat → Bool)
    (h0 : outcome 0 = false) (h1 : outcome 1 = false)
    (h2 : outcome 2 = false) :
    call_gpt4o outcome = (Except.error (), 3, [5, 10]) ∧
    (∀ o : Nat → Bool, (call_gpt4o o).2.1 ≤ 3) ∧
    (∀ o : Nat → Bool, o 0 = true → call_gpt4o o = (Except.ok 0, 1, [])) ∧
    (∀ o : Nat → Bool, o 0 = false → o 1 = true →
      call_gpt4o o = (Except.ok 1, 2, [5])) ∧
    (∀ o : Nat → Bool, o 0 = false → o 1 = false → o 2 = true →
      call_gpt4o o = (Except.ok 2, 3, [5, 10])) ∧
    (∀ e : ImgEnv, (generate_example_image e).2.promptLLM ≤ 1 ∧
      (generate_example_image e).2.imageAPI ≤ 1 ∧
      (generate_example_image e).2.download ≤ 1) ∧
    (∀ (a : AudioEnv) (fs : AudioFS),
      (generate_audio a fs).charTTSCalls ≤ 1 ∧
      (generate_audio a fs).wordTTSCalls ≤ 1) ∧
    (∀ u : UploadFileEnv, (upload_file_to_moodle u).2 = 1) ∧
    (∀ a : ActivityEnv, (create_h5p_activity a).2 = 1) ∧
    (∀ e : ApiCheckEnv, (check_api_access e).2 = 1) := by
  have hrange : List.range 3 = [0, 1, 2] := rfl
  refine ⟨?_, ?_, ?_, ?_, ?_, ?_, ?_, ?_, ?_, ?_⟩
  · simp [call_gpt4o, hrange, gptAttempts, h0, h1, h2]
  · intro o
    by_cases b0 : o 0 = true <;> by_cases b1 : o 1 = true <;>
      by_cases b2 : o 2 = true <;>
        simp_all [call_gpt4o, hrange, gptAttempts]
  · intro o hb
    simp [call_gpt4o, hrange, gptAttempts, hb]
  · intro o hb0 hb1
    simp [call_gpt4o, hrange, gptAttempts, hb0, hb1]
  · intro o hb0 hb1 hb2
    simp [call_gpt4o, hrange, gptAttempts, hb0, hb1, hb2]
  · intro e
    unfold generate_example_image
    split_ifs <;> simp
  · intro a fs
    unfold generate_audio
    split_ifs <;> simp
  · intro u
    unfold upload_file_to_moodle
    split_ifs <;> rfl
  · intro a
    unfold create_h5p_activity
    split_ifs <;> rfl
  · intro e
    unfold check_api_access
    split_ifs <;> rfl

/-- C8 witness: all three attempts fail, so the error is re-raised after
exactly 3 completion calls and sleeps of 5 and 10 seconds. -/
theorem C8_witness :
    ((fun _ : Nat => false) 0 = false) ∧
    call_gpt4o (fun _ => false) = (Except.error (), 3, [5, 10]) :=
  ⟨rfl, (C8_retry_policy (fun _ => false) rfl rfl rfl).1⟩

/-- C4 (amended): patching a dialog-cards template with a document whose
cards list has K cards yields a content descriptor whose dialogs list has
exactly K entries; each entry is a JSON object with exactly the keys
`text`, `answer` and `tips`, holding the corresponding card's
text/answer/tip with the empty string as default when the field is absent
— the card's image and audio fields are never copied into the entry. -/
theorem C4_dialogs_from_cards (existing : DialogContent)
    (newData : DialogCardsDoc) (cards : List Card)
    (hc : newData.cards = some cards) :
    ∃ ds, (update_dialog_cards existing newData).dialogs = some ds ∧
      ds.length = cards.length ∧
      ∀ (i : Nat) (card : Card), cards[i]? = some card →
        ds[i]? = some [("text", card.text.getD ""),
          ("answer", card.answer.getD ""), ("tips", card.tip.getD "")] := by
  refine ⟨cards.map dialogOfCard, ?_, by simp, ?_⟩
  · cases ht : newData.title <;> cases hd : newData.description <;>
      cases hb : newData.behaviour <;>
        simp [update_dialog_cards, ht, hd, hb, hc]
  · intro i card hcard
    simp [List.getElem?_map, hcard, dialogOfCard]

/-- C4 witness: a two-card document, one card with all fields, one bare. -/
theorem C4_witness :
    (DialogCardsDoc.mk none none
        (some [Card.mk (some "t") (some "a") (some "h") none none,
          Card.mk none none none none none]) none).cards =
      some [Card.mk (some "t") (some "a") (some "h") none none,
        Card.mk none none none none none] ∧
    ∃ ds,
      (update_dialog_cards (DialogContent.mk none none none none [])
          (DialogCardsDoc.mk none none
            (some [Card.mk (some "t") (some "a") (some "h") none none,
              Card.mk none none none none none]) none)).dialogs = some ds ∧
      ds.length =
        [Card.mk (some "t") (some "a") (some "h") none none,
          Card.mk none none none none none].length ∧
      ∀ (i : Nat) (card : Card),
        [Card.mk (some "t") (some "a") (some "h") none none,
          Card.mk none none none none none][i]? = some card →
        ds[i]? = some [("text", card.text.getD ""),
          ("answer", card.answer.getD ""), ("tips", card.tip.getD "")] :=
  ⟨rfl,
    C4_dialogs_from_cards (DialogContent.mk none none none none [])
      (DialogCardsDoc.mk none none
        (some [Card.mk (some "t") (some "a") (some "h") none none,
          Card.mk none none none none none]) none)
      [Card.mk (some "t") (some "a") (some "h") none none,
        Card.mk none none none none none] rfl⟩

/-- C4 counterexample: a card with image and audio present and tip
absent produces a dialog entry with no image or audio key (they are
dropped) and with a `tips` key holding the empty string (not omitted),
refuting the claim that the entry carries image/audio when present and
omits tip when absent. -/
theorem C4_counterexample :
    (update_dialog_cards (DialogContent.mk none none none none [])
        (DialogCardsDoc.mk none none
          (some [Card.mk (some "t") none none (some "img.svg")
            (some "a.mp3")]) none)).dialogs =
      some [[("text", "t"), ("answer", ""), ("tips", "")]] := by
  decide

/-- C5 (amended): with no content-type keyword in the file name, a
document with a cards key infers dialog_cards; a document with a
questions key infers multiple_choice as soon as SOME question has an
answers key (not only when all do); fill_blanks is inferred only when NO
question has an answers key and some question's text contains the
blank-marker character; otherwise the default dialog_cards is returned. -/
theorem C5_content_kind_inference (fileName : String) (doc : ContentDoc)
    (hkw : ∀ t ∈ contentTypeKeys, strContains fileName t = false) :
    (doc.hasCards = true →
      determine_content_type fileName doc = "dialog_cards") ∧
    (doc.hasCards = false → doc.hasSlides = false →
      ∀ qs, doc.questions = some qs →
        (qs.any (fun q => q.hasAnswers) = true →
          determine_content_type fileName doc = "multiple_choice") ∧
        (qs.any (fun q => q.hasAnswers) = false →
          qs.any (fun q => q.text.isSome &&
            strContains (q.text.getD "") "*") = true →
          determine_content_type fileName doc = "fill_blanks") ∧
        (qs.any (fun q => q.hasAnswers) = false →
          qs.any (fun q => q.text.isSome &&
            strContains (q.text.getD "") "*") = false →
          determine_content_type fileName doc = "dialog_cards")) ∧
    (doc.questions = none → doc.hasCards = false → doc.hasSlides = false →
      determine_content_type fileName doc = "dialog_cards") := by
  have hfind : contentTypeKeys.find? (fun t => strContains fileName t) =
      none := by
    apply List.find?_eq_none.mpr
    intro t ht
    simp [hkw t ht]
  refine ⟨?_, ?_, ?_⟩
  · intro h
    simp [determine_content_type, hfind, h]
  · intro h1 h2 qs hqs
    refine ⟨?_, ?_, ?_⟩ <;> intro ha <;>
      simp [determine_content_type, hfind, h1, h2, hqs, ha]
  · intro hq h1 h2
    simp [determine_content_type, hfind, h1, h2, hq]

/-- C5 witness: a cards-document and a no-answers starred questions
document, with a keyword-free file name. -/
theorem C5_witness :
    (∀ t ∈ contentTypeKeys, strContains "x.json" t = false) ∧
    determine_content_type "x.json" (ContentDoc.mk true false none) =
      "dialog_cards" ∧
    determine_content_type "x.json"
        (ContentDoc.mk false false (some [Question.mk false (some "a*b")])) =
      "fill_blanks" :=
  ⟨by decide,
    (C5_content_kind_inference "x.json" (ContentDoc.mk true false none)
      (by decide)).1 rfl,
    (((C5_content_kind_inference "x.json"
        (ContentDoc.mk false false (some [Question.mk false (some "a*b")]))
        (by decide)).2.1 rfl rfl
        [Question.mk false (some "a*b")] rfl).2.1 (by decide) (by decide))⟩

/-- C5 counterexample: a document whose single question has an answers
key AND text containing the blank-marker.  The claim requires the
fill-blank kind (some question text contains the marker), but the code
tests the answers key first and returns the choice-question kind. -/
theorem C5_counterexample :
    determine_content_type "x.json"
        (ContentDoc.mk false false (some [Question.mk true (some "a*b")])) =
      "multiple_choice" ∧
    determine_content_type "x.json"
        (ContentDoc.mk false false (some [Question.mk true (some "a*b")])) ≠
      "fill_blanks" := by
  decide

/-- C6 (amended): `update_h5p_metadata` rewrites exactly the title field
(when the document has one) and leaves every other metadata field
unchanged; in particular the language field is not rewritten and a
default-language field is not removed.  With no document title the
descriptor is returned verbatim. -/
theorem C6_metadata_title_only {α : Type} (meta : List (String × α))
    (titleField : Option α) :
    (∀ k, k ≠ "title" →
      dictGet (update_h5p_metadata meta titleField) k = dictGet meta k) ∧
    (∀ t, titleField = some t →
      dictGet (update_h5p_metadata meta titleField) "title" = some t) ∧
    (titleField = none → update_h5p_metadata meta titleField = meta) := by
  cases titleField with
  | none =>
      refine ⟨fun k _ => rfl, ?_, fun _ => rfl⟩
      intro t ht
      simp at ht
  | some t =>
      refine ⟨?_, ?_, ?_⟩
      · intro k hk
        exact dictGet_insert_ne meta "title" k t (fun h => hk h.symm)
      · intro t' ht'
        rw [Option.some_inj] at ht'
        rw [ht']
        exact dictGet_insert_self meta "title" t'
      · intro h
        simp at h

/-- C6 witness: title rewritten, an unrelated key untouched. -/
theorem C6_witness :
    (("language" : String) ≠ "title") ∧
    dictGet (update_h5p_metadata [("language", "id"), ("title", "old")]
        (some "T")) "language" =
      dictGet [("language", "id"), ("title", "old")] "language" :=
  ⟨by decide,
    (C6_metadata_title_only [("language", "id"), ("title", "old")]
      (some "T")).1 "language" (by decide)⟩

/-- C6 counterexample: after updating a metadata descriptor that carries
language and default-language fields, the stale default-language field is
still present (the claim says it is removed) and the language field still
holds the template's value (the claim says it is rewritten). -/
theorem C6_counterexample :
    dictGet (update_h5p_metadata
        [("language", "id"), ("defaultLanguage", "en"), ("title", "old")]
        (some "T")) "defaultLanguage" = some "en" ∧
    dictGet (update_h5p_metadata
        [("language", "id"), ("defaultLanguage", "en"), ("title", "old")]
        (some "T")) "language" = some "id" := by
  decide

theorem uploadLoop_no_apiCheck (env : MoodleEnv) (files : List String)
    (events : List UploadEvent) (succ failed : Nat) :
    ∃ tail, (uploadLoop env files events succ failed).1 = events ++ tail ∧
      UploadEvent.apiCheck ∉ tail := by
  induction files generalizing events succ failed with
  | nil => exact ⟨[], by simp [uploadLoop], by simp⟩
  | cons f rest ih =>
      by_cases hu : env.uploadOk f = true
      · by_cases ha : env.activityOk f = true
        · obtain ⟨tail, h1, h2⟩ := ih
            (events ++ [UploadEvent.fileUpload f, UploadEvent.activityCreate f])
            (succ + 1) failed
          refine ⟨[UploadEvent.fileUpload f, UploadEvent.activityCreate f] ++
            tail, ?_, ?_⟩
          · rw [show uploadLoop env (f :: rest) events succ failed =
                uploadLoop env rest
                  (events ++ [UploadEvent.fileUpload f,
                    UploadEvent.activityCreate f]) (succ + 1) failed from
              by simp [uploadLoop, hu, ha]]
            rw [h1, List.append_assoc]
          · simp only [List.mem_append, List.mem_cons, List.not_mem_nil]
            rintro (⟨h, _⟩ | h) <;> simp_all
        · obtain ⟨tail, h1, h2⟩ := ih
            (events ++ [UploadEvent.fileUpload f, UploadEvent.activityCreate f])
            succ (failed + 1)
          refine ⟨[UploadEvent.fileUpload f, UploadEvent.activityCreate f] ++
            tail, ?_, ?_⟩
          · rw [show uploadLoop env (f :: rest) events succ failed =
                uploadLoop env rest
                  (events ++ [UploadEvent.fileUpload f,
                    UploadEvent.activityCreate f]) succ (failed + 1) from
              by simp [uploadLoop, hu, ha]]
            rw [h1, List.append_assoc]
          · simp only [List.mem_append, List.mem_cons, List.not_mem_nil]
            rintro (⟨h, _⟩ | h) <;> simp_all
      · obtain ⟨tail, h1, h2⟩ := ih (events ++ [UploadEvent.fileUpload f])
          succ (failed + 1)
        refine ⟨[UploadEvent.fileUpload f] ++ tail, ?_, ?_⟩
        · rw [show uploadLoop env (f :: rest) events succ failed =
              uploadLoop env rest (events ++ [UploadEvent.fileUpload f])
                succ (failed + 1) from by simp [uploadLoop, hu]]
          rw [h1, List.append_assoc]
        · simp only [List.mem_append, List.mem_cons, List.not_mem_nil]
          rintro (⟨h, _⟩ | h) <;> simp_all

/-- C9 (amended): the uploader checks credentials and then performs the
connectivity check at most once per run, before any archive file is
touched (the event trace is empty or starts with the single API check);
on missing credentials or a failed check the run aborts with zero files
uploaded — but `main` returns normally after logging, so the CLI exits
zero rather than propagating an exception (`raised` is `false` on every
path). -/
theorem C9_upload_abort_zero_files (env : MoodleEnv) :
    (get_config_ok env = false → upload_main env = RunResult.mk [] 0 0 false) ∧
    (get_config_ok env = true → env.apiCheckOk = false →
      upload_main env = RunResult.mk [UploadEvent.apiCheck] 0 0 false) ∧
    (upload_main env).raised = false ∧
    ((upload_main env).events = [] ∨
      ∃ tail, (upload_main env).events = UploadEvent.apiCheck :: tail ∧
        UploadEvent.apiCheck ∉ tail) := by
  refine ⟨?_, ?_, ?_, ?_⟩
  · intro h
    simp [upload_main, h]
  · intro h1 h2
    simp [upload_main, h1, h2]
  · by_cases h1 : get_config_ok env = true
    · by_cases h2 : env.apiCheckOk = true <;> simp [upload_main, h1, h2]
    · simp [upload_main, h1]
  · by_cases h1 : get_config_ok env = true
    · by_cases h2 : env.apiCheckOk = true
      · right
        obtain ⟨tail, ht1, ht2⟩ :=
          uploadLoop_no_apiCheck env env.files [UploadEvent.apiCheck] 0 0
        exact ⟨tail, by simp [upload_main, h1, h2, ht1], ht2⟩
      · right
        exact ⟨[], by simp [upload_main, h1, h2], by simp⟩
    · left
      simp [upload_main, h1]

/-- C9 witness: a failed connectivity check aborts the run with only the
check in the trace and zero uploads. -/
theorem C9_witness :
    (get_config_ok (MoodleEnv.mk true true true false ["f.h5p"]
        (fun _ => true) (fun _ => true)) = true) ∧
    upload_main (MoodleEnv.mk true true true false ["f.h5p"]
        (fun _ => true) (fun _ => true)) =
      RunResult.mk [UploadEvent.apiCheck] 0 0 false :=
  ⟨rfl,
    (C9_upload_abort_zero_files (MoodleEnv.mk true true true false ["f.h5p"]
      (fun _ => true) (fun _ => true))).2.1 rfl rfl⟩

/-- C9 counterexample: with a required credential missing the run aborts
before touching any file, but `main` returns normally — `raised` is
`false`, so the CLI exits zero instead of propagating the causing
exception as the claim states. -/
theorem C9_counterexample :
    upload_main (MoodleEnv.mk true false true true ["f.h5p"]
        (fun _ => true) (fun _ => true)) =
      RunResult.mk [] 0 0 false ∧
    (upload_main (MoodleEnv.mk true false true true ["f.h5p"]
        (fun _ => true) (fun _ => true))).raised = false := by
  constructor <;> rfl
